import Mathlib

/-!
# Verification of the pyoscar station-report summarization core

A shallow embedding of the summarization / XML-extraction subsystem of
`pyoscar/__init__.py`:

* `get_typed_value`  — the typed-value coercion helper (source lines 458-477);
* `get_xpath`        — the namespaced XPath extraction helper (lines 418-455);
* `FACILITY_TYPE_LOOKUP` — the 12-entry facility-type table (lines 47-60);
* `OSCARClient.get_station_report_summary` — the polymorphic report
  summarizer (lines 245-329), embedded as `get_station_report_summary`.

XML documents are modelled at the interface the source uses: a document is a
queryable object, i.e. a function from an XPath expression string to the list
of matching nodes (the XPath engine itself is the external lxml collaborator).
A matched node is either an attribute value (lxml surfaces these as plain
strings) or an element with optional text content.

Python dynamics are made explicit: functions that can raise are embedded in
`Except PyErr`; Python values flowing into the summary dictionary live in the
inductive `Val` (None / str / int / float); the summary dictionary itself is
an association list built in the same assignment order as the source.
-/

namespace PyOscar

/-- A Python exception, as far as the embedded code can observe it. -/
inductive PyErr where
  /-- `ValueError`, raised by the built-ins `float`/`int` on unparsable text. -/
  | valueError
  /-- `KeyError`, raised by a failed dict lookup; carries the offending key
  rendered as text (`KeyError: None` for a `None` key). -/
  | keyError (key : String)
  /-- `AttributeError`, raised e.g. by `None.split()`. -/
  | attributeError
  /-- `IndexError`, raised by out-of-range list indexing. -/
  | indexError
  deriving DecidableEq, Repr

/-- A Python value as it appears in a summary record: `None`, a `str`, an
`int`, or a `float` (floats arising here are parsed decimal literals, carried
exactly as rationals). -/
inductive Val where
  | none
  | str (s : String)
  | int (n : ℤ)
  | float (q : ℚ)
  deriving DecidableEq, Repr

/-- Fold a digit list into the natural number it denotes. -/
def digitsToNat (cs : List Char) : ℕ :=
  cs.foldl (fun a c => a * 10 + (c.toNat - 48)) 0

/-- Split a character list at every occurrence of the separator `c`,
keeping empty pieces — the behaviour of Python `s.split(c)` for a
single-character separator. -/
def splitOnCharAux (c : Char) : List Char → List Char → List (List Char)
  | [], acc => [acc.reverse]
  | x :: xs, acc =>
      if x = c then acc.reverse :: splitOnCharAux c xs []
      else splitOnCharAux c xs (x :: acc)

/-- Python `s.split(c)` for a one-character separator: at least one piece,
empty pieces kept (`"".split('/') == ['']`). -/
def pySplitOn (s : String) (c : Char) : List String :=
  (splitOnCharAux c s.toList []).map String.mk

/-- Python `c in s` membership test for a single character. -/
def pyContains (s : String) (c : Char) : Bool :=
  s.toList.contains c

/-- Python `len(s)`. -/
def pyLen (s : String) : ℕ :=
  s.toList.length

/-- Python `s.startswith(c)` for a one-character prefix. -/
def pyStartsWith (s : String) (c : Char) : Bool :=
  match s.toList with
  | [] => false
  | x :: _ => x = c

/-- Model of the Python built-in `float` on the decimal fragment the data
uses: an optional sign followed by digits carrying at most one `.` with at
least one digit overall (`"3.5"`, `".5"`, `"5."`, `"-33.86"`, `"007"`).
Anything else — in particular a second `.` as in `"1.2.0"` — raises
`ValueError`, modelled as `Option.none`. -/
def pyFloat (s : String) : Option ℚ :=
  let (sgn, rest) : ℤ × List Char :=
    match s.toList with
    | '+' :: r => (1, r)
    | '-' :: r => (-1, r)
    | r => (1, r)
  match splitOnCharAux '.' rest [] with
  | [ip] =>
      if ip ≠ [] ∧ ip.all Char.isDigit then
        some (Rat.normalize (sgn * digitsToNat ip) 1 one_ne_zero)
      else none
  | [ip, fp] =>
      if (ip ≠ [] ∨ fp ≠ []) ∧ ip.all Char.isDigit ∧ fp.all Char.isDigit then
        some (Rat.normalize
          (sgn * (digitsToNat ip * 10 ^ fp.length + digitsToNat fp))
          (10 ^ fp.length) (pow_ne_zero _ (by norm_num)))
      else none
  | _ => none

/-- Model of the Python built-in `int` on base-10 text: an optional sign
followed by at least one digit; anything else raises `ValueError`, modelled
as `Option.none`. -/
def pyInt (s : String) : Option ℤ :=
  let (sgn, rest) : ℤ × List Char :=
    match s.toList with
    | '+' :: r => (1, r)
    | '-' :: r => (-1, r)
    | r => (1, r)
  if rest ≠ [] ∧ rest.all Char.isDigit then
    some (sgn * digitsToNat rest)
  else none

/-- Python `value.split()` with no separator: split on runs of whitespace,
discarding empty pieces. -/
def pySplit (s : String) : List String :=
  ((splitOnCharAux ' ' (s.toList.map
      (fun c => if c.isWhitespace then ' ' else c)) []).filter
    (· ≠ [])).map String.mk

/-- The `try` body of `get_typed_value` (source lines 467-473): float parse
when a `.` is present, the leading-zero string case, otherwise int parse.
A failed parse raises `ValueError`. -/
def get_typed_value_try (value : String) : Except PyErr Val :=
  if pyContains value '.' then
    match pyFloat value with
    | some q => .ok (.float q)
    | Option.none => .error .valueError
  else if 1 < pyLen value ∧ pyStartsWith value '0' then
    .ok (.str value)
  else
    match pyInt value with
    | some n => .ok (.int n)
    | Option.none => .error .valueError

/-- `get_typed_value` (source lines 458-477): the `try` body with the
`except ValueError` handler returning the original string unchanged. -/
def get_typed_value (value : String) : Val :=
  match get_typed_value_try value with
  | .ok v => v
  | .error _ => .str value

/-- Decidable equality of `Except` results, used to evaluate the embedded
functions on concrete inputs. -/
instance exceptDecidableEq {ε α : Type} [DecidableEq ε] [DecidableEq α] :
    DecidableEq (Except ε α)
  | .error e, .error f =>
      if h : e = f then .isTrue (by rw [h])
      else .isFalse (fun hh => h (Except.error.inj hh))
  | .error _, .ok _ => .isFalse (fun hh => Except.noConfusion hh)
  | .ok _, .error _ => .isFalse (fun hh => Except.noConfusion hh)
  | .ok a, .ok b =>
      if h : a = b then .isTrue (by rw [h])
      else .isFalse (fun hh => h (Except.ok.inj hh))

/-- A node matched by an XPath node-set expression, as lxml surfaces it: an
attribute selector yields a plain string, an element selector yields the
element object, whose `.text` is its optional text content. -/
inductive Node where
  | attr (s : String)
  | elem (text : Option String)
  deriving DecidableEq, Repr

/-- An XML document, modelled at the source's interface to lxml: a function
from an XPath expression (with the three fixed namespace prefixes bound) to
the list of matching nodes. -/
def XmlDoc : Type := String → List Node

/-- The possible return values of `get_xpath`, mirroring its Python union
return type `list | str | None`. -/
inductive XPathResult where
  /-- the raw match list, returned when `first=False` -/
  | list (l : List Node)
  /-- a string: the attribute value itself, or an element's text -/
  | str (s : String)
  /-- `None`: no match, or a first-matched element with no text -/
  | none
  deriving DecidableEq, Repr

/-- `get_xpath` (source lines 418-455): evaluate the expression; with
`first=False` return the raw match list; with `first=True` return `None` on
zero matches, else the first match as-is when it is already a string
(attribute selector) and its text content otherwise. -/
def get_xpath (element : XmlDoc) (xpath : String) (first : Bool := true) :
    XPathResult :=
  let value := element xpath
  if first = false then
    .list value
  else
    match value with
    | [] => .none
    | v :: _ =>
        match v with
        | .attr s => .str s
        | .elem t =>
            match t with
            | some s => .str s
            | Option.none => .none

/-- `FACILITY_TYPE_LOOKUP` (source lines 47-60): the 12-entry mapping from
short facility-type codes to human-readable labels. -/
def FACILITY_TYPE_LOOKUP : List (String × String) :=
  [("seaMobile", "Sea (mobile)"),
   ("underwaterFixed", "Underwater (fixed)"),
   ("underwaterMobile", "Underwater (mobile)"),
   ("airMobile", "Air (mobile)"),
   ("lakeRiverMobile", "Lake/River (mobile)"),
   ("seaOnIce", "Sea (on ice)"),
   ("landMobile", "Land (mobile)"),
   ("landFixed", "Land (fixed)"),
   ("lakeRiverFixed", "Lake/River (fixed)"),
   ("seaFixed", "Sea (fixed)"),
   ("airFixed", "Air (fixed)"),
   ("landOnIce", "Land (on ice)")]

/-! ## The XPath expressions used by the summarizer (source lines 268-320) -/

/-- XPath for the facility name element. -/
def NAME_XPATH : String := "//wmdr:ObservingFacility/gml:name"

/-- XPath for the facility identifier element. -/
def IDENT_XPATH : String := "//wmdr:ObservingFacility/gml:identifier"

/-- XPath for the facility-type reference attribute. -/
def FT_XPATH : String :=
  "//wmdr:ObservingFacility//wmdr:facilityType/@xlink:href"

/-- XPath for the WMO-region reference attribute. -/
def REGION_XPATH : String :=
  "//wmdr:ObservingFacility//wmdr:wmoRegion/@xlink:href"

/-- XPath for the territory-name reference attribute. -/
def TERRITORY_XPATH : String :=
  "//wmdr:ObservingFacility//wmdr:territoryName/@xlink:href"

/-- XPath for the facility geo-location position. -/
def POS_XPATH : String :=
  "//wmdr:ObservingFacility//wmdr:geoLocation//gml:pos"

/-- XPath for the position of the equipment element identified by the fixed
barometric-pressure code (source line 320). -/
def BARO_XPATH : String :=
  "//wmdr:Process//wmdr:Deployment//wmdr:Equipment[gml:identifier/@codeSpace=\x22http://codes.wmo.int/wmdr/ObservedVariableAtmosphere/216\x22]//wmdr:geoLocation//gml:pos"

/-! ## The station-report data model -/

/-- One entry of the structured report's `wigosIds` list. -/
structure WigosIdRec where
  wid : Val
  deriving DecidableEq, Repr

/-- One entry of the structured report's `locations` list; `elevation` is
read with `.get`, so it is optional. -/
structure LocationRec where
  latitude : Val
  longitude : Val
  elevation : Option Val
  deriving DecidableEq, Repr

/-- One entry of the structured report's `territories` list. -/
structure TerritoryRec where
  territoryName : Val
  deriving DecidableEq, Repr

/-- The structured (JSON `dict`) form of a station report, restricted to the
keys the summarizer reads. -/
structure StructuredStation where
  name : Val
  wigosIds : List WigosIdRec
  typeName : Val
  locations : List LocationRec
  territories : List TerritoryRec
  wmoRaId : Val
  deriving DecidableEq, Repr

/-- A station report: the tagged union of the structured (`dict`) form and
the parsed-XML (`etree.Element`) form that `isinstance` dispatches on. -/
inductive StationReport where
  | dict (d : StructuredStation)
  | xml (x : XmlDoc)

/-- The summary record: an association list mirroring the Python `dict`
built by successive `summary[...] = ...` assignments (no key is assigned
twice in the source, so a plain append-order list is faithful). -/
abbrev Summary : Type := List (String × Val)

/-- An `Option`al string surfaced into a summary value (`None` ↦ `Val.none`). -/
def optStr : Option String → Val
  | Option.none => .none
  | some s => .str s

/-- The `first=True` result of `get_xpath` as the summarizer consumes it:
`None` or a string. -/
def XPathResult.toOptStr : XPathResult → Option String
  | .str s => some s
  | _ => Option.none

/-- The shared "absent → `None`, else final `/`-segment" normalization the
source applies to the facility-type, WMO-region and territory-name
attributes (lines 277-296): Python `if not x` treats both `None` and the
empty string as absent. -/
def urlTail : Option String → Option String
  | Option.none => Option.none
  | some s =>
      if s.toList = [] then Option.none
      else some ((pySplitOn s '/').getLastD "")

/-- The structured-form branch of `get_station_report_summary` (source lines
256-265): direct field reads, with `[0]` indexing of the `wigosIds`,
`locations` and `territories` lists raising `IndexError` when empty. -/
def summarize_dict (station : StructuredStation) : Except PyErr Summary :=
  match station.wigosIds.head? with
  | Option.none => .error .indexError
  | some w =>
    match station.locations.head? with
    | Option.none => .error .indexError
    | some l =>
      match station.territories.head? with
      | Option.none => .error .indexError
      | some t =>
        .ok [("station_name", station.name),
             ("wigos_station_identifier", w.wid),
             ("facility_type", station.typeName),
             ("latitude", l.latitude),
             ("longitude", l.longitude),
             ("elevation", match l.elevation with
                           | Option.none => Val.none
                           | some e => e),
             ("barometer_height", Val.none),
             ("territory_name", t.territoryName),
             ("wmo_region", station.wmoRaId)]

/-- The XML-form branch of `get_station_report_summary` (source lines
267-329), step by step in source order:
* `station_name` ← first `gml:name` match (may be `None`);
* `wigos_station_identifier` ← `identifier` text split on `,`, token 0;
  a `None` here raises `AttributeError` (`None.split`);
* `facility_type`/`wmo_region`/`territory_name` ← `urlTail` of the
  respective reference attribute;
* `facility_type` is then resolved through `FACILITY_TYPE_LOOKUP` by plain
  `dict` indexing, raising `KeyError` when the key (including `None`) is not
  in the table;
* the position text is split on whitespace; `geometry[0]`/`geometry[1]`
  raise on absence; `elevation` only when exactly 3 tokens;
* `barometer_height` ← last token of the fixed-code equipment position when
  that extraction returns a string, else `None`. -/
def summarize_xml (station : XmlDoc) : Except PyErr Summary :=
  let station_name := (get_xpath station NAME_XPATH).toOptStr
  match (get_xpath station IDENT_XPATH).toOptStr with
  | Option.none => .error .attributeError
  | some identText =>
    let wigos_station_identifier := (pySplitOn identText ',').headD ""
    let facility_type := urlTail ((get_xpath station FT_XPATH).toOptStr)
    let wmo_region := urlTail ((get_xpath station REGION_XPATH).toOptStr)
    let territory_name := urlTail ((get_xpath station TERRITORY_XPATH).toOptStr)
    match (match facility_type with
           | Option.none => Except.error (PyErr.keyError "None")
           | some code =>
             match FACILITY_TYPE_LOOKUP.lookup code with
             | Option.none => Except.error (PyErr.keyError code)
             | some label => Except.ok label) with
    | .error e => .error e
    | .ok facilityLabel =>
      match (get_xpath station POS_XPATH).toOptStr with
      | Option.none => .error .attributeError
      | some posText =>
        let geometry := pySplit posText
        match geometry.head? with
        | Option.none => .error .indexError
        | some tok0 =>
          match geometry.get? 1 with
          | Option.none => .error .indexError
          | some tok1 =>
            let elevation := if geometry.length = 3 then
                get_typed_value (geometry.getD 2 "")
              else Val.none
            match (match (get_xpath station BARO_XPATH).toOptStr with
                   | Option.none => Except.ok Val.none
                   | some baroText =>
                     match (pySplit baroText).getLast? with
                     | Option.none => Except.error PyErr.indexError
                     | some lastTok =>
                       Except.ok (get_typed_value lastTok)) with
            | .error e => .error e
            | .ok barometer_height =>
              .ok [("station_name", optStr station_name),
                   ("wigos_station_identifier",
                     Val.str wigos_station_identifier),
                   ("facility_type", Val.str facilityLabel),
                   ("wmo_region", optStr wmo_region),
                   ("territory_name", optStr territory_name),
                   ("latitude", get_typed_value tok0),
                   ("longitude", get_typed_value tok1),
                   ("elevation", elevation),
                   ("barometer_height", barometer_height)]

/-- `OSCARClient.get_station_report_summary` (source lines 245-329):
dispatch on the report representation. -/
def get_station_report_summary (station : StationReport) :
    Except PyErr Summary :=
  match station with
  | .dict d => summarize_dict d
  | .xml x => summarize_xml x

/-! ## Concrete example inputs -/

/-- A complete WMDR XML report: all optional parts present, with a
`landFixed` facility type, position `"-33.86 151.2 40.0"` and a
barometric-pressure equipment position `"1.0 2.0 3.5"`. -/
def stationFullXml : XmlDoc := fun p =>
  if p = NAME_XPATH then [.elem (some "SYDNEY")]
  else if p = IDENT_XPATH then [.elem (some "0-20000-0-71758,other")]
  else if p = FT_XPATH then
    [.attr "http://codes.wmo.int/wmdr/FacilityType/landFixed"]
  else if p = REGION_XPATH then
    [.attr "http://codes.wmo.int/wmdr/WMORegion/southWestPacific"]
  else if p = TERRITORY_XPATH then
    [.attr "http://codes.wmo.int/wmdr/TerritoryName/AUS"]
  else if p = POS_XPATH then [.elem (some "-33.86 151.2 40.0")]
  else if p = BARO_XPATH then [.elem (some "1.0 2.0 3.5")]
  else []

/-- The same report with the facility-type reference attribute absent. -/
def stationNoFacilityType : XmlDoc := fun p =>
  if p = NAME_XPATH then [.elem (some "SYDNEY")]
  else if p = IDENT_XPATH then [.elem (some "0-20000-0-71758,other")]
  else if p = REGION_XPATH then
    [.attr "http://codes.wmo.int/wmdr/WMORegion/southWestPacific"]
  else if p = TERRITORY_XPATH then
    [.attr "http://codes.wmo.int/wmdr/TerritoryName/AUS"]
  else if p = POS_XPATH then [.elem (some "-33.86 151.2 40.0")]
  else if p = BARO_XPATH then [.elem (some "1.0 2.0 3.5")]
  else []

/-- The same report with a facility-type code that is not a key of
`FACILITY_TYPE_LOOKUP`. -/
def stationUnknownFacilityType : XmlDoc := fun p =>
  if p = NAME_XPATH then [.elem (some "SYDNEY")]
  else if p = IDENT_XPATH then [.elem (some "0-20000-0-71758,other")]
  else if p = FT_XPATH then
    [.attr "http://codes.wmo.int/wmdr/FacilityType/spaceStation"]
  else if p = POS_XPATH then [.elem (some "-33.86 151.2 40.0")]
  else []

/-- The same report with no barometric-pressure equipment element. -/
def stationNoBarometer : XmlDoc := fun p =>
  if p = NAME_XPATH then [.elem (some "SYDNEY")]
  else if p = IDENT_XPATH then [.elem (some "0-20000-0-71758,other")]
  else if p = FT_XPATH then
    [.attr "http://codes.wmo.int/wmdr/FacilityType/landFixed"]
  else if p = POS_XPATH then [.elem (some "-33.86 151.2")]
  else []

/-- The same report with no geo-location position element at all. -/
def stationNoPosition : XmlDoc := fun p =>
  if p = NAME_XPATH then [.elem (some "SYDNEY")]
  else if p = IDENT_XPATH then [.elem (some "0-20000-0-71758,other")]
  else if p = FT_XPATH then
    [.attr "http://codes.wmo.int/wmdr/FacilityType/landFixed"]
  else if p = BARO_XPATH then [.elem (some "1.0 2.0 3.5")]
  else []

/-- A two-person document echoing the repository's own `get_xpath` test:
two `firstname` element matches. -/
def personsDoc : XmlDoc := fun p =>
  if p = "//person/firstname" then
    [.elem (some "John"), .elem (some "Bob")]
  else if p = "//person/@department" then
    [.attr "monitoring", .attr "prediction"]
  else []

/-- A document whose single match for `"//station/comment"` is an element
with no text content. -/
def textlessElemDoc : XmlDoc := fun p =>
  if p = "//station/comment" then [.elem Option.none] else []

/-- The structured report of the repository's own test fixture. -/
def sydneyStructured : StructuredStation :=
  { name := .str "SYDNEY CS, NS",
    wigosIds := [⟨.str "0-20000-0-71758"⟩],
    typeName := .str "Land (fixed)",
    locations := [{ latitude := .float (Rat.mk' (-1693) 50),
                    longitude := .float (Rat.mk' 756 5),
                    elevation := Option.none }],
    territories := [⟨.str "Australia"⟩],
    wmoRaId := .str "V" }

/-- A structured report whose `wigosIds` list is empty. -/
def emptyWigosStructured : StructuredStation :=
  { sydneyStructured with wigosIds := [] }

/-! ## Inversion of the XML summarization branch -/

/-- Python value identity for comparing an extraction result with a raw
matched node: an attribute match is itself a plain string, an element match
is the element object. -/
inductive PyObj where
  | pynone
  | pystr (s : String)
  | pyelem (text : Option String)
  | pylist (l : List Node)
  deriving DecidableEq, Repr

/-- A `get_xpath` result as the Python object it is. -/
def XPathResult.toObj : XPathResult → PyObj
  | .none => .pynone
  | .str s => .pystr s
  | .list l => .pylist l

/-- A matched node as the Python object it is: lxml surfaces attribute
matches as plain strings and element matches as element objects. -/
def Node.toObj : Node → PyObj
  | .attr s => .pystr s
  | .elem t => .pyelem t

/-- Inversion of a successful run of the XML branch: every intermediate
extraction succeeded and the summary is the literal nine-entry record. -/
lemma summarize_xml_ok_inv (x : XmlDoc) (s : Summary)
    (h : summarize_xml x = .ok s) :
    ∃ identText code label posText tok0 tok1 rest baroVal,
      (get_xpath x IDENT_XPATH).toOptStr = some identText ∧
      urlTail ((get_xpath x FT_XPATH).toOptStr) = some code ∧
      FACILITY_TYPE_LOOKUP.lookup code = some label ∧
      (get_xpath x POS_XPATH).toOptStr = some posText ∧
      pySplit posText = tok0 :: tok1 :: rest ∧
      ((get_xpath x BARO_XPATH).toOptStr = Option.none ∧ baroVal = Val.none ∨
        ∃ b lastTok, (get_xpath x BARO_XPATH).toOptStr = some b ∧
          (pySplit b).getLast? = some lastTok ∧
          baroVal = get_typed_value lastTok) ∧
      s = [("station_name", optStr ((get_xpath x NAME_XPATH).toOptStr)),
           ("wigos_station_identifier",
             Val.str ((pySplitOn identText ',').headD "")),
           ("facility_type", Val.str label),
           ("wmo_region",
             optStr (urlTail ((get_xpath x REGION_XPATH).toOptStr))),
           ("territory_name",
             optStr (urlTail ((get_xpath x TERRITORY_XPATH).toOptStr))),
           ("latitude", get_typed_value tok0),
           ("longitude", get_typed_value tok1),
           ("elevation",
             if (pySplit posText).length = 3 then
               get_typed_value ((pySplit posText).getD 2 "")
             else Val.none),
           ("barometer_height", baroVal)] := by
  unfold summarize_xml at h
  cases hI : (get_xpath x IDENT_XPATH).toOptStr with
  | none => rw [hI] at h; exact absurd h (by simp)
  | some identText =>
    rw [hI] at h
    cases hF : urlTail ((get_xpath x FT_XPATH).toOptStr) with
    | none => simp only [hF] at h; exact absurd h (by simp)
    | some code =>
      simp only [hF] at h
      cases hL : FACILITY_TYPE_LOOKUP.lookup code with
      | none => simp only [hL] at h; exact absurd h (by simp)
      | some label =>
        simp only [hL] at h
        cases hP : (get_xpath x POS_XPATH).toOptStr with
        | none => simp only [hP] at h; exact absurd h (by simp)
        | some posText =>
          simp only [hP] at h
          cases hG : pySplit posText with
          | nil => simp only [hG] at h; exact absurd h (by simp)
          | cons tok0 gtail =>
            cases gtail with
            | nil => simp only [hG] at h; exact absurd h (by simp)
            | cons tok1 rest =>
              simp only [hG] at h
              cases hB : (get_xpath x BARO_XPATH).toOptStr with
              | none =>
                simp only [hB] at h
                refine ⟨identText, code, label, posText, tok0, tok1, rest,
                  Val.none, rfl, rfl, hL, rfl, hG, Or.inl ⟨rfl, rfl⟩, ?_⟩
                simp only [List.head?_cons, List.get?_cons_succ,
                  List.get?_cons_zero, Except.ok.injEq] at h
                simp only [hG]
                exact h.symm
              | some baroText =>
                simp only [hB] at h
                cases hBL : (pySplit baroText).getLast? with
                | none => simp only [hBL] at h; exact absurd h (by simp)
                | some lastTok =>
                  simp only [hBL] at h
                  refine ⟨identText, code, label, posText, tok0, tok1, rest,
                    get_typed_value lastTok, rfl, rfl, hL, rfl, hG,
                    Or.inr ⟨baroText, lastTok, rfl, hBL, rfl⟩, ?_⟩
                  simp only [List.head?_cons, List.get?_cons_succ,
                    List.get?_cons_zero, Except.ok.injEq] at h
                  simp only [hG]
                  exact h.symm

/-- The summary the structured branch produces for `sydneyStructured`. -/
def sydneySummary : Summary :=
  [("station_name", .str "SYDNEY CS, NS"),
   ("wigos_station_identifier", .str "0-20000-0-71758"),
   ("facility_type", .str "Land (fixed)"),
   ("latitude", .float (Rat.mk' (-1693) 50)),
   ("longitude", .float (Rat.mk' 756 5)),
   ("elevation", Val.none),
   ("barometer_height", Val.none),
   ("territory_name", .str "Australia"),
   ("wmo_region", .str "V")]

/-- The summary the XML branch produces for `stationFullXml`. -/
def fullXmlSummary : Summary :=
  [("station_name", .str "SYDNEY"),
   ("wigos_station_identifier", .str "0-20000-0-71758"),
   ("facility_type", .str "Land (fixed)"),
   ("wmo_region", .str "southWestPacific"),
   ("territory_name", .str "AUS"),
   ("latitude", .float (Rat.mk' (-1693) 50)),
   ("longitude", .float (Rat.mk' 756 5)),
   ("elevation", .float 40),
   ("barometer_height", .float (Rat.mk' 7 2))]

/-- The summary the XML branch produces for `stationNoBarometer`. -/
def noBaroSummary : Summary :=
  [("station_name", .str "SYDNEY"),
   ("wigos_station_identifier", .str "0-20000-0-71758"),
   ("facility_type", .str "Land (fixed)"),
   ("wmo_region", Val.none),
   ("territory_name", Val.none),
   ("latitude", .float (Rat.mk' (-1693) 50)),
   ("longitude", .float (Rat.mk' 756 5)),
   ("elevation", Val.none),
   ("barometer_height", Val.none)]

/-! ## Claim theorems -/

/-- C1: on an XML report whose facility-type reference attribute is absent,
`get_station_report_summary` does not return a summary with a null
`facility_type`: the unconditional `FACILITY_TYPE_LOOKUP[facility_type]`
indexing at source line 300 raises `KeyError: None`. This evaluates the
embedded code at the failing input. -/
theorem summary_missing_facility_type_raises :
    get_station_report_summary (.xml stationNoFacilityType) =
      .error (.keyError "None") := by decide

/-- C9: a null `first=True` extraction does not imply zero matches: on a
document whose single match is an element with no text content, `get_xpath`
with `first=False` returns a one-element list while `first=True` returns
null. -/
theorem get_xpath_null_despite_match :
    get_xpath textlessElemDoc "//station/comment" false =
      .list [Node.elem Option.none] ∧
    get_xpath textlessElemDoc "//station/comment" true = .none := by decide

/-- C3 counterexample: on a document with two element matches, `first=False`
returns the raw two-node list, but `first=True` returns the first element's
text content — as a Python value this is a plain string, not the element
object at index 0 of that list, so the claim "returns the same value as
index 0 of that list" fails. -/
theorem get_xpath_first_differs_from_index0 :
    get_xpath personsDoc "//person/firstname" false =
      .list [Node.elem (some "John"), Node.elem (some "Bob")] ∧
    get_xpath personsDoc "//person/firstname" true = .str "John" ∧
    (get_xpath personsDoc "//person/firstname" true).toObj ≠
      Node.toObj (Node.elem (some "John")) := by decide

/-- C3 amended: `extract(doc, path, first=False)` returns the raw list of
all N matches; `extract(doc, path, first=True)` returns null when N = 0 and
otherwise surfaces the first match of that list: the string itself for an
attribute match, and the element's text content (null when it has none) for
an element match. -/
theorem get_xpath_first_all_relation :
    ∀ (doc : XmlDoc) (p : String),
      get_xpath doc p false = .list (doc p) ∧
      (doc p = [] → get_xpath doc p true = .none) ∧
      (∀ a rest, doc p = .attr a :: rest → get_xpath doc p true = .str a) ∧
      (∀ t rest, doc p = .elem t :: rest →
        get_xpath doc p true = (match t with
                                | some s => XPathResult.str s
                                | Option.none => XPathResult.none)) := by
  intro doc p
  refine ⟨by simp [get_xpath], ?_, ?_, ?_⟩
  · intro h; simp [get_xpath, h]
  · intro a rest h; simp [get_xpath, h]
  · intro t rest h; cases t <;> simp [get_xpath, h]

/-- C3 amended, witness: the amended relation evaluated on the two-person
document, covering the attribute, element and empty cases. -/
theorem get_xpath_first_all_relation_witness :
    get_xpath personsDoc "//person/@department" false =
      .list [Node.attr "monitoring", Node.attr "prediction"] ∧
    get_xpath personsDoc "//person/@department" true = .str "monitoring" ∧
    get_xpath personsDoc "//nothing" true = .none ∧
    get_xpath personsDoc "//person/firstname" true = .str "John" :=
  ⟨(get_xpath_first_all_relation personsDoc "//person/@department").1,
   (get_xpath_first_all_relation personsDoc "//person/@department").2.2.1
     "monitoring" [Node.attr "prediction"] (by decide),
   (get_xpath_first_all_relation personsDoc "//nothing").2.1 (by decide),
   (get_xpath_first_all_relation personsDoc "//person/firstname").2.2.2
     (some "John") [Node.elem (some "Bob")] (by decide)⟩

/-- C6: `get_typed_value` is total — for every input string it returns an
integer, a float, or a string (never `None`, and the `except ValueError`
handler means no exception escapes) — and the edge case `"1.2.0"` contains
a `.` but fails the float parse, so it is returned unchanged as a string. -/
theorem get_typed_value_total_and_edge :
    (∀ s : String,
      (∃ n, get_typed_value s = .int n) ∨
      (∃ q, get_typed_value s = .float q) ∨
      (∃ t, get_typed_value s = .str t)) ∧
    get_typed_value "1.2.0" = .str "1.2.0" := by
  constructor
  · intro s
    unfold get_typed_value
    cases htry : get_typed_value_try s with
    | error e =>
        exact Or.inr (Or.inr ⟨s, rfl⟩)
    | ok v =>
        unfold get_typed_value_try at htry
        repeat' split at htry
        all_goals
          first
          | exact absurd htry (fun hh => Except.noConfusion hh)
          | (cases htry
             first
             | exact Or.inl ⟨_, rfl⟩
             | exact Or.inr (Or.inl ⟨_, rfl⟩)
             | exact Or.inr (Or.inr ⟨_, rfl⟩))
  · decide

/-- C7: a string of length greater than 1 that starts with `0` and contains
no `.` is returned unchanged by `get_typed_value` rather than parsed as an
integer. -/
theorem get_typed_value_leading_zero (s : String) (h1 : 1 < pyLen s)
    (h2 : pyStartsWith s '0' = true) (h3 : pyContains s '.' = false) :
    get_typed_value s = .str s := by
  unfold get_typed_value get_typed_value_try
  simp [h1, h2, h3]

/-- C7 witness: `get_typed_value "007"` is the string `"007"`, not the
integer `7`. -/
theorem get_typed_value_leading_zero_witness :
    get_typed_value "007" = .str "007" ∧ Val.str "007" ≠ Val.int 7 :=
  ⟨get_typed_value_leading_zero "007" (by decide) (by decide) (by decide),
   by decide⟩

/-- C2: whenever `get_station_report_summary` returns a summary — for
either representation — that summary has exactly the nine named fields, no
more, no fewer. -/
theorem summary_has_exactly_nine_fields (r : StationReport) (s : Summary)
    (h : get_station_report_summary r = .ok s) :
    (s.map Prod.fst).Perm
      ["station_name", "wigos_station_identifier", "facility_type",
       "latitude", "longitude", "elevation", "barometer_height",
       "territory_name", "wmo_region"] := by
  cases r with
  | dict d =>
      replace h : summarize_dict d = .ok s := h
      unfold summarize_dict at h
      cases hW : d.wigosIds.head? with
      | none => rw [hW] at h; exact absurd h (by simp)
      | some w =>
        rw [hW] at h
        cases hL : d.locations.head? with
        | none => rw [hL] at h; exact absurd h (by simp)
        | some l =>
          rw [hL] at h
          cases hT : d.territories.head? with
          | none => rw [hT] at h; exact absurd h (by simp)
          | some t =>
            rw [hT] at h
            simp only [Except.ok.injEq] at h
            subst h
            simp only [List.map_cons, List.map_nil]
            exact List.Perm.refl _
  | xml x =>
      obtain ⟨iT, code, label, pT, t0, t1, rest, bV, _, _, _, _, _, _, hs⟩ :=
        summarize_xml_ok_inv x s h
      subst hs
      simp only [List.map_cons, List.map_nil]
      decide

/-- C2 witness: the nine-field invariant instantiated on the repository's
structured test fixture. -/
theorem summary_has_exactly_nine_fields_witness :
    (sydneySummary.map Prod.fst).Perm
      ["station_name", "wigos_station_identifier", "facility_type",
       "latitude", "longitude", "elevation", "barometer_height",
       "territory_name", "wmo_region"] :=
  summary_has_exactly_nine_fields (.dict sydneyStructured) sydneySummary
    (by decide)

/-- C8: the geo-location position of the XML form is a required field —
when its extraction yields no position, summarization fails outright with
an exception instead of producing a summary with null latitude/longitude —
and when a position string is present, latitude and longitude are the
coercions of its first two whitespace-separated tokens. -/
theorem position_required_rule :
    (∀ x : XmlDoc, x POS_XPATH = [] →
      ∃ e, get_station_report_summary (.xml x) = .error e) ∧
    (∀ (x : XmlDoc) (s : Summary) (g tok0 tok1 : String)
        (rest : List String),
      get_station_report_summary (.xml x) = .ok s →
      (get_xpath x POS_XPATH).toOptStr = some g →
      pySplit g = tok0 :: tok1 :: rest →
      s.lookup "latitude" = some (get_typed_value tok0) ∧
      s.lookup "longitude" = some (get_typed_value tok1)) := by
  constructor
  · intro x hx
    cases hres : get_station_report_summary (.xml x) with
    | error e => exact ⟨e, rfl⟩
    | ok s =>
        exfalso
        obtain ⟨iT, code, label, pT, t0, t1, rest, bV, _, _, _, hP, _, _, _⟩ :=
          summarize_xml_ok_inv x s hres
        simp [get_xpath, hx, XPathResult.toOptStr] at hP
  · intro x s g tok0 tok1 rest h hg hsplit
    obtain ⟨iT, code, label, pT, t0, t1, rest', bV, hI, hF, hL, hP, hG, hB,
      hs⟩ := summarize_xml_ok_inv x s h
    rw [hP] at hg
    injection hg with hg
    subst hg
    rw [hsplit] at hG
    injection hG with h0 hG
    injection hG with h1 _
    subst h0; subst h1; subst hs
    exact ⟨rfl, rfl⟩

/-- C8 witness: the rule instantiated on a report with no position element
(hard failure) and on the full report (latitude/longitude from the first
two tokens of `"-33.86 151.2 40.0"`). -/
theorem position_required_rule_witness :
    (∃ e, get_station_report_summary (.xml stationNoPosition) = .error e) ∧
    fullXmlSummary.lookup "latitude" =
      some (get_typed_value "-33.86") ∧
    fullXmlSummary.lookup "longitude" =
      some (get_typed_value "151.2") :=
  ⟨position_required_rule.1 stationNoPosition (by decide),
   position_required_rule.2 stationFullXml fullXmlSummary
     "-33.86 151.2 40.0" "-33.86" "151.2" ["40.0"]
     (by decide) (by decide) (by decide)⟩

/-- C10: the structured branch indexes element 0 of the `wigosIds`,
`locations` and `territories` lists unconditionally — an empty list makes
the call raise rather than yield a null field — and when all three lists
are non-empty the branch always produces a summary. -/
theorem dict_branch_list_preconditions :
    (∀ d : StructuredStation,
      d.wigosIds = [] ∨ d.locations = [] ∨ d.territories = [] →
      ∃ e, get_station_report_summary (.dict d) = .error e) ∧
    (∀ d : StructuredStation,
      d.wigosIds ≠ [] → d.locations ≠ [] → d.territories ≠ [] →
      ∃ s, get_station_report_summary (.dict d) = .ok s) := by
  constructor
  · intro d hd
    refine ⟨.indexError, ?_⟩
    show summarize_dict d = .error .indexError
    unfold summarize_dict
    cases hW : d.wigosIds.head? with
    | none => rfl
    | some w =>
        cases hL : d.locations.head? with
        | none => rfl
        | some l =>
            cases hT : d.territories.head? with
            | none => rfl
            | some t =>
                exfalso
                rcases hd with h | h | h
                · rw [h] at hW; simp at hW
                · rw [h] at hL; simp at hL
                · rw [h] at hT; simp at hT
  · intro d hW hL hT
    obtain ⟨w, ws, hW'⟩ : ∃ w ws, d.wigosIds = w :: ws := by
      cases h : d.wigosIds with
      | nil => exact absurd h hW
      | cons a b => exact ⟨a, b, rfl⟩
    obtain ⟨l, ls, hL'⟩ : ∃ l ls, d.locations = l :: ls := by
      cases h : d.locations with
      | nil => exact absurd h hL
      | cons a b => exact ⟨a, b, rfl⟩
    obtain ⟨t, ts, hT'⟩ : ∃ t ts, d.territories = t :: ts := by
      cases h : d.territories with
      | nil => exact absurd h hT
      | cons a b => exact ⟨a, b, rfl⟩
    refine ⟨[("station_name", d.name),
             ("wigos_station_identifier", w.wid),
             ("facility_type", d.typeName),
             ("latitude", l.latitude),
             ("longitude", l.longitude),
             ("elevation", match l.elevation with
                           | Option.none => Val.none
                           | some e => e),
             ("barometer_height", Val.none),
             ("territory_name", t.territoryName),
             ("wmo_region", d.wmoRaId)], ?_⟩
    show summarize_dict d = .ok _
    unfold summarize_dict
    rw [hW', hL', hT']
    rfl

/-- C10 witness: a structured report with an empty `wigosIds` list raises,
and the non-empty test fixture summarizes successfully. -/
theorem dict_branch_list_preconditions_witness :
    (∃ e, get_station_report_summary (.dict emptyWigosStructured) =
      .error e) ∧
    (∃ s, get_station_report_summary (.dict sydneyStructured) = .ok s) :=
  ⟨dict_branch_list_preconditions.1 emptyWigosStructured (Or.inl rfl),
   dict_branch_list_preconditions.2 sydneyStructured
     (by decide) (by decide) (by decide)⟩

/-- C4: `barometer_height` is null for every structured-form summary; for
the XML form it is null when the fixed-code equipment element has no match,
and otherwise it is the coercion of the last whitespace-separated token of
the extracted position text — for `"1.0 2.0 3.5"` that is the float `3.5`
(i.e. `7/2`). -/
theorem barometer_height_rule :
    (∀ (d : StructuredStation) (s : Summary),
        get_station_report_summary (.dict d) = .ok s →
        s.lookup "barometer_height" = some Val.none) ∧
    (∀ (x : XmlDoc) (s : Summary),
        get_station_report_summary (.xml x) = .ok s →
        x BARO_XPATH = [] →
        s.lookup "barometer_height" = some Val.none) ∧
    (∀ (x : XmlDoc) (s : Summary) (b : String),
        get_station_report_summary (.xml x) = .ok s →
        (get_xpath x BARO_XPATH).toOptStr = some b →
        s.lookup "barometer_height" =
          some (get_typed_value ((pySplit b).getLastD ""))) ∧
    get_typed_value ((pySplit "1.0 2.0 3.5").getLastD "") =
      .float (Rat.mk' 7 2) ∧
    (Rat.mk' 7 2 : ℚ) = 3.5 := by
  refine ⟨?_, ?_, ?_, by decide, ?_⟩
  · intro d s h
    replace h : summarize_dict d = .ok s := h
    unfold summarize_dict at h
    cases hW : d.wigosIds.head? with
    | none => rw [hW] at h; exact absurd h (by simp)
    | some w =>
      rw [hW] at h
      cases hL : d.locations.head? with
      | none => rw [hL] at h; exact absurd h (by simp)
      | some l =>
        rw [hL] at h
        cases hT : d.territories.head? with
        | none => rw [hT] at h; exact absurd h (by simp)
        | some t =>
          rw [hT] at h
          simp only [Except.ok.injEq] at h
          subst h
          rfl
  · intro x s h hx
    obtain ⟨iT, code, label, pT, t0, t1, rest, bV, hI, hF, hL, hP, hG, hBd,
      hs⟩ := summarize_xml_ok_inv x s h
    have hB : (get_xpath x BARO_XPATH).toOptStr = Option.none := by
      simp [get_xpath, hx, XPathResult.toOptStr]
    rcases hBd with ⟨_, hbv⟩ | ⟨b, lt, hb, _, _⟩
    · subst hbv; subst hs; rfl
    · rw [hb] at hB; exact Option.noConfusion hB
  · intro x s b h hb
    obtain ⟨iT, code, label, pT, t0, t1, rest, bV, hI, hF, hL, hP, hG, hBd,
      hs⟩ := summarize_xml_ok_inv x s h
    rcases hBd with ⟨hnone, _⟩ | ⟨b', lt, hb', hlast, hbv⟩
    · rw [hnone] at hb; exact Option.noConfusion hb
    · rw [hb'] at hb
      injection hb with hb
      subst hb
      subst hbv
      subst hs
      have hlast' : (pySplit b').getLastD "" = lt := by
        rw [List.getLastD_eq_getLast?, hlast]
        rfl
      rw [hlast']
      rfl
  · norm_num [Rat.mk'_eq_divInt, Rat.divInt_eq_div]

/-- C4 witness: the rule instantiated on the structured fixture (null), an
XML report without the equipment element (null), and the full XML report
whose equipment position is `"1.0 2.0 3.5"`. -/
theorem barometer_height_rule_witness :
    sydneySummary.lookup "barometer_height" = some Val.none ∧
    noBaroSummary.lookup "barometer_height" = some Val.none ∧
    fullXmlSummary.lookup "barometer_height" =
      some (get_typed_value ((pySplit "1.0 2.0 3.5").getLastD "")) :=
  ⟨barometer_height_rule.1 sydneyStructured sydneySummary (by decide),
   barometer_height_rule.2.1 stationNoBarometer noBaroSummary
     (by decide) (by decide),
   barometer_height_rule.2.2.1 stationFullXml fullXmlSummary "1.0 2.0 3.5"
     (by decide) (by decide)⟩

/-- C5: the facility-type table has exactly 12 entries; on an XML report
whose facility-type reference attribute is present, a successful
summarization resolves the final `/`-separated segment of the attribute
through `FACILITY_TYPE_LOOKUP`; when that segment is not a key of the
table the call fails hard instead of defaulting; and the `landFixed`
segment resolves to `"Land (fixed)"`. -/
theorem facility_type_resolution :
    FACILITY_TYPE_LOOKUP.length = 12 ∧
    (∀ (x : XmlDoc) (s : Summary) (a : String) (rest : List Node)
        (label : String),
      x FT_XPATH = .attr a :: rest →
      FACILITY_TYPE_LOOKUP.lookup ((pySplitOn a '/').getLastD "") =
        some label →
      get_station_report_summary (.xml x) = .ok s →
      s.lookup "facility_type" = some (.str label)) ∧
    (∀ (x : XmlDoc) (a : String) (rest : List Node),
      x FT_XPATH = .attr a :: rest →
      FACILITY_TYPE_LOOKUP.lookup ((pySplitOn a '/').getLastD "") =
        Option.none →
      ∃ e, get_station_report_summary (.xml x) = .error e) ∧
    FACILITY_TYPE_LOOKUP.lookup "landFixed" = some "Land (fixed)" := by
  refine ⟨by decide, ?_, ?_, by decide⟩
  · intro x s a rest label hx hlook h
    obtain ⟨iT, code, label', pT, t0, t1, rest', bV, hI, hF, hL, hP, hG, hBd,
      hs⟩ := summarize_xml_ok_inv x s h
    have hax : (get_xpath x FT_XPATH).toOptStr = some a := by
      simp [get_xpath, hx, XPathResult.toOptStr]
    rw [hax] at hF
    simp only [urlTail] at hF
    by_cases hemp : a.toList = []
    · rw [if_pos hemp] at hF; exact Option.noConfusion hF
    · rw [if_neg hemp] at hF
      injection hF with hF
      rw [hF] at hlook
      rw [hlook] at hL
      injection hL with hL
      subst hL
      subst hs
      rfl
  · intro x a rest hx hlook
    cases hres : get_station_report_summary (.xml x) with
    | error e => exact ⟨e, rfl⟩
    | ok s =>
      exfalso
      obtain ⟨iT, code, label', pT, t0, t1, rest', bV, hI, hF, hL, hP, hG,
        hBd, hs⟩ := summarize_xml_ok_inv x s hres
      have hax : (get_xpath x FT_XPATH).toOptStr = some a := by
        simp [get_xpath, hx, XPathResult.toOptStr]
      rw [hax] at hF
      simp only [urlTail] at hF
      by_cases hemp : a.toList = []
      · rw [if_pos hemp] at hF; exact Option.noConfusion hF
      · rw [if_neg hemp] at hF
        injection hF with hF
        rw [hF] at hlook
        rw [hlook] at hL
        exact Option.noConfusion hL

/-- C5 witness: the resolution rule instantiated on the full report (an
attribute ending in `/landFixed` yields `"Land (fixed)"`) and on a report
with an unknown facility-type code (hard failure). -/
theorem facility_type_resolution_witness :
    fullXmlSummary.lookup "facility_type" = some (.str "Land (fixed)") ∧
    (∃ e, get_station_report_summary (.xml stationUnknownFacilityType) =
      .error e) :=
  ⟨facility_type_resolution.2.1 stationFullXml fullXmlSummary
     "http://codes.wmo.int/wmdr/FacilityType/landFixed" [] "Land (fixed)"
     (by decide) (by decide) (by decide),
   facility_type_resolution.2.2.1 stationUnknownFacilityType
     "http://codes.wmo.int/wmdr/FacilityType/spaceStation" []
     (by decide) (by decide)⟩

end PyOscar
